import Mathlib

/-!
Shallow embedding of the University records portal (src/app.py, src/models.py).

Modelling conventions:
* Database rows (models.py) become Lean structures; the database state is a
  `DB` record of row lists.  Auto-managed timestamp columns (`created_at`,
  `updated_at`) and free-text columns irrelevant to the verified logic are
  omitted.
* Each verified route handler is embedded as a pure function on `DB` taking
  the authenticated caller's user id; the role gate at the top of every
  handler (`current_user.role != ...`) is outside the modelled body, so the
  functions describe the behaviour seen by a caller of the required role.
* A handler returning an HTTP error is modelled as `Except.error` carrying an
  `ApiError` constructor; each constructor corresponds to one distinct
  (status code, message) return in the source.  An error return leaves the
  database untouched (the source returns before any `db.session` write, or
  rolls back).
* Python sets (`existing_subject_ids`, `existing_slots`, `set(new_slots)`)
  are modelled by lists used only through membership / distinct-count, which
  coincides with set semantics.
* SQLAlchemy queries `filter_by(...).all()` / `.first()` / `.get(pk)` become
  `List.filter` / `List.find?` on the row lists; primary keys are unique in a
  real table, which appears as explicit `Nodup` hypotheses where needed.
-/

/-- Subject row (models.py `Subject`): id, name, code, credits (db.Integer),
slot label, optional owning faculty. -/
structure Subject where
  id : Nat
  name : String
  code : String
  credits : Int
  slot : String
  faculty_id : Option Nat
deriving DecidableEq

/-- Enrollment row (models.py `Enrollment`): student, subject, denormalized
faculty snapshot.  Table constraint: (student_id, subject_id) unique. -/
structure Enrollment where
  student_id : Nat
  subject_id : Nat
  faculty_id : Option Nat
deriving DecidableEq

/-- Grade row (models.py `Grade`): marks (db.Float, modelled as ℚ), derived
letter, lifecycle flags.  Defaults: `is_final=False`, `reevaluation_allowed=False`.
Table constraint: (student_id, subject_id) unique. -/
structure Grade where
  student_id : Nat
  subject_id : Nat
  marks : Rat
  grade : String
  is_final : Bool
  reevaluation_allowed : Bool
deriving DecidableEq

/-- Re-evaluation request row (models.py `ReEvaluationRequest`). -/
structure ReEvaluationRequest where
  id : Nat
  student_id : Nat
  subject_id : Nat
  reason : String
  status : String
  admin_comment : Option String
deriving DecidableEq

/-- The relational store restricted to the tables the verified handlers touch. -/
structure DB where
  subjects : List Subject
  enrollments : List Enrollment
  grades : List Grade
  requests : List ReEvaluationRequest
deriving DecidableEq

/-- Distinct error returns of the embedded handlers (spec §7 taxonomy; each
constructor is one (HTTP status, message) pair in app.py). -/
inductive ApiError where
  | ValidationError
  | NotFound
  | CreditLimitExceeded
  | SlotClash
  | Forbidden
  | GradeLocked
deriving DecidableEq

/-- The `subject_ids` field of the enroll request body.  `missing` covers an
absent key / falsy non-list value, `notList` a truthy non-list value; the
source (app.py:266-268) rejects both the same way. -/
inductive SubjectIdsField where
  | missing
  | notList
  | ids (l : List Nat)
deriving DecidableEq

/-- app.py `calculate_grade` (lines 677-685): letter grade from marks. -/
def calculate_grade (marks : Rat) : String :=
  if marks ≥ 90 then "A+"
  else if marks ≥ 80 then "A"
  else if marks ≥ 70 then "B+"
  else if marks ≥ 60 then "B"
  else if marks ≥ 50 then "C"
  else if marks ≥ 40 then "D"
  else "F"

/-- Enrollment rows of one student (app.py:276
`Enrollment.query.filter_by(student_id=current_user.id).all()`). -/
def studentEnrollments (db : DB) (uid : Nat) : List Enrollment :=
  db.enrollments.filter (fun e => decide (e.student_id = uid))

/-- app.py:277 `existing_subject_ids = {e.subject_id for e in existing_enrollments}`
(a Python set, modelled as the list of subject ids, used only via membership). -/
def studentSubjectIds (db : DB) (uid : Nat) : List Nat :=
  (studentEnrollments db uid).map Enrollment.subject_id

/-- app.py:278 `existing_slots = {e.subject.slot for e in existing_enrollments}`:
the slot of each enrolled subject, resolved through the `e.subject`
relationship (defined where the foreign key resolves). -/
def studentSlots (db : DB) (uid : Nat) : List String :=
  (studentEnrollments db uid).filterMap
    (fun e => (db.subjects.find? (fun s => decide (s.id = e.subject_id))).map Subject.slot)

/-- app.py:271 `Subject.query.filter(Subject.id.in_(subject_ids)).all()`. -/
def requestedSubjects (db : DB) (ids : List Nat) : List Subject :=
  db.subjects.filter (fun s => decide (s.id ∈ ids))

/-- app.py:281-289: the requested subjects the student is not yet enrolled in
(`to_create`; already-enrolled requests are skipped). -/
def newSubjects (db : DB) (uid : Nat) (ids : List Nat) : List Subject :=
  (requestedSubjects db ids).filter (fun s => decide (s.id ∉ studentSubjectIds db uid))

/-- app.py:293 credit total of the catalog subjects whose id is in `ids`
(`sum(s.credits for s in Subject.query.filter(Subject.id.in_(all_subject_ids)))`;
the `if all_subject_ids else 0` guard coincides with the empty filter). -/
def creditSum (subs : List Subject) (ids : List Nat) : Int :=
  ((subs.filter (fun s => decide (s.id ∈ ids))).map Subject.credits).sum

/-- app.py:292-293 `all_subject_ids = list(existing_subject_ids) + [s.id for s
in to_create]` and its credit total. -/
def enrollTotalCredits (db : DB) (uid : Nat) (ids : List Nat) : Int :=
  creditSum db.subjects (studentSubjectIds db uid ++ (newSubjects db uid ids).map Subject.id)

/-- app.py `enroll_subject` (lines 257-322), after the student role gate:
payload validation, catalog resolution, duplicate skipping, credit cap,
slot-clash checks, then creation of one Enrollment per new subject with the
subject's current faculty snapshot. -/
def enroll_subject (db : DB) (uid : Nat) (payload : SubjectIdsField) : Except ApiError DB :=
  match payload with
  | SubjectIdsField.missing => Except.error ApiError.ValidationError
  | SubjectIdsField.notList => Except.error ApiError.ValidationError
  | SubjectIdsField.ids subject_ids =>
    if subject_ids = [] then Except.error ApiError.ValidationError
    else if (requestedSubjects db subject_ids).length ≠ subject_ids.length then
      Except.error ApiError.NotFound
    else
      let to_create := newSubjects db uid subject_ids
      let new_slots := to_create.map Subject.slot
      if enrollTotalCredits db uid subject_ids > 27 then
        Except.error ApiError.CreditLimitExceeded
      else if new_slots.any (fun sl => decide (sl ∈ studentSlots db uid)) then
        Except.error ApiError.SlotClash
      else if new_slots.length ≠ new_slots.dedup.length then
        Except.error ApiError.SlotClash
      else
        Except.ok { db with
          enrollments := db.enrollments ++
            to_create.map (fun s =>
              { student_id := uid, subject_id := s.id, faculty_id := s.faculty_id }) }

/-- app.py:482-486: the enrollment binding exactly (student, subject, calling
faculty) (`Enrollment.query.filter_by(student_id=..., subject_id=...,
faculty_id=current_user.id).first()`). -/
def facultyEnrollment (db : DB) (sid subid fid : Nat) : Option Enrollment :=
  db.enrollments.find? (fun e =>
    decide (e.student_id = sid ∧ e.subject_id = subid ∧ e.faculty_id = some fid))

/-- app.py:491-494: the grade row for (student, subject)
(`Grade.query.filter_by(student_id=..., subject_id=...).first()`). -/
def gradeFor (db : DB) (sid subid : Nat) : Option Grade :=
  db.grades.find? (fun g => decide (g.student_id = sid ∧ g.subject_id = subid))

/-- app.py:500-501 on the fetched row: overwrite `marks` and recompute `grade`
on the first row matching (student, subject), leaving every other row and
every other field alone (models the in-place ORM mutation of `.first()`). -/
def updateGradeRows (gs : List Grade) (sid subid : Nat) (marks : Rat) : List Grade :=
  match gs with
  | [] => []
  | g :: rest =>
    if g.student_id = sid ∧ g.subject_id = subid then
      { g with marks := marks, grade := calculate_grade marks } :: rest
    else
      g :: updateGradeRows rest sid subid marks

/-- app.py `add_grade` (lines 471-513), after the faculty role gate:
authorization against the (student, subject, faculty) enrollment, then
create-or-update of the grade row gated by `is_final`/`reevaluation_allowed`.
A freshly created row takes the models.py defaults `is_final=False`,
`reevaluation_allowed=False`. -/
def add_grade (db : DB) (fid sid subid : Nat) (marks : Rat) : Except ApiError DB :=
  match facultyEnrollment db sid subid fid with
  | none => Except.error ApiError.Forbidden
  | some _ =>
    match gradeFor db sid subid with
    | some g =>
      if ¬ g.reevaluation_allowed ∧ g.is_final then Except.error ApiError.GradeLocked
      else Except.ok { db with grades := updateGradeRows db.grades sid subid marks }
    | none =>
      Except.ok { db with grades := db.grades ++
        [{ student_id := sid, subject_id := subid, marks := marks,
           grade := calculate_grade marks, is_final := false,
           reevaluation_allowed := false }] }

/-- app.py `finalize_grades` (lines 515-534), after the faculty role gate:
set `is_final=True` and `reevaluation_allowed=False` on every grade row of the
given subject. -/
def finalize_grades (db : DB) (subject_id : Nat) : DB :=
  { db with grades := db.grades.map (fun g =>
      if g.subject_id = subject_id then
        { g with is_final := true, reevaluation_allowed := false }
      else g) }

/-- app.py:204-210 on the fetched row: set `reevaluation_allowed=True` on the
first grade row matching (student, subject) (models the in-place ORM mutation
of `.first()`); no matching row means no change. -/
def unlockGradeRows (gs : List Grade) (sid subid : Nat) : List Grade :=
  match gs with
  | [] => []
  | g :: rest =>
    if g.student_id = sid ∧ g.subject_id = subid then
      { g with reevaluation_allowed := true } :: rest
    else
      g :: unlockGradeRows rest sid subid

/-- app.py `approve_reevaluation` (lines 186-214), after the admin role gate:
404 on an unknown request id; otherwise store the given status and
admin_comment on that request (primary-key lookup modelled as an update of
the rows with that id), and when the stored status is "approved" unlock the
matching grade row if one exists. -/
def approve_reevaluation (db : DB) (request_id : Nat) (status : String)
    (admin_comment : Option String) : Except ApiError DB :=
  match db.requests.find? (fun r => decide (r.id = request_id)) with
  | none => Except.error ApiError.NotFound
  | some req =>
    Except.ok { db with
      requests := db.requests.map (fun r =>
        if r.id = request_id then
          { r with status := status, admin_comment := admin_comment }
        else r),
      grades :=
        if status = "approved" then
          unlockGradeRows db.grades req.student_id req.subject_id
        else db.grades }

/-- Concrete catalog used by the closed instances below: two subjects in
distinct slots plus one clashing slot. -/
def sampleSubjects : List Subject :=
  [{ id := 1, name := "Algebra", code := "MA101", credits := 4, slot := "A1",
     faculty_id := some 100 },
   { id := 2, name := "Physics", code := "PH101", credits := 24, slot := "B1",
     faculty_id := some 100 },
   { id := 3, name := "Chemistry", code := "CH101", credits := 3, slot := "A1",
     faculty_id := some 101 }]

/-- Concrete database: student 10 already enrolled in subject 1. -/
def sampleDB : DB :=
  { subjects := sampleSubjects,
    enrollments := [{ student_id := 10, subject_id := 1, faculty_id := some 100 }],
    grades := [],
    requests := [] }

/-- Concrete database for the grade-lifecycle instances: student 10 enrolled
in subject 1 under faculty 100, with one unlocked final grade, and another
student's grade in a different subject. -/
def gradeDB : DB :=
  { subjects := sampleSubjects,
    enrollments :=
      [{ student_id := 10, subject_id := 1, faculty_id := some 100 },
       { student_id := 11, subject_id := 1, faculty_id := some 101 }],
    grades :=
      [{ student_id := 10, subject_id := 1, marks := 55, grade := "C",
         is_final := true, reevaluation_allowed := true },
       { student_id := 11, subject_id := 3, marks := 91, grade := "A+",
         is_final := false, reevaluation_allowed := false }],
    requests :=
      [{ id := 7, student_id := 10, subject_id := 1, reason := "recount",
         status := "pending", admin_comment := none }] }

/-- Result of faculty 100 re-grading student 10 in subject 1 on `gradeDB`
(used by the closed instances below). -/
def gradeDB2 : DB :=
  { gradeDB with grades := updateGradeRows gradeDB.grades 10 1 85 }

/-- C4: the letter-grade function is total and deterministic on marks, the
bands are exactly `≥90→A+, [80,90)→A, [70,80)→B+, [60,70)→B, [50,60)→C,
[40,50)→D, <40→F` (non-overlapping, lower bounds inclusive), and concretely
`calculate_grade 90 = "A+"`, `89 = "A"`, `40 = "D"`, `39 = "F"`. -/
theorem c4_letter_grade_bands (m : Rat) :
    (calculate_grade m = "A+" ↔ 90 ≤ m) ∧
    (calculate_grade m = "A" ↔ 80 ≤ m ∧ m < 90) ∧
    (calculate_grade m = "B+" ↔ 70 ≤ m ∧ m < 80) ∧
    (calculate_grade m = "B" ↔ 60 ≤ m ∧ m < 70) ∧
    (calculate_grade m = "C" ↔ 50 ≤ m ∧ m < 60) ∧
    (calculate_grade m = "D" ↔ 40 ≤ m ∧ m < 50) ∧
    (calculate_grade m = "F" ↔ m < 40) ∧
    calculate_grade 90 = "A+" ∧ calculate_grade 89 = "A" ∧
    calculate_grade 40 = "D" ∧ calculate_grade 39 = "F" := by
  unfold calculate_grade
  refine ⟨?_, ?_, ?_, ?_, ?_, ?_, ?_, by norm_num, by norm_num, by norm_num, by norm_num⟩ <;>
    · split_ifs <;> simp_all <;> first
        | linarith
        | (constructor <;> intro <;> linarith)
        | (intro <;> linarith)

/-- C10: an enroll request whose `subject_ids` is missing, not a list, or the
empty list is rejected with the validation error (HTTP 400,
"subject_ids must be a non-empty list") before any catalog lookup, and no
Enrollment row is created — the empty request is not a successful no-op. -/
theorem c10_enroll_rejects_empty_payload (db : DB) (uid : Nat) (p : SubjectIdsField)
    (h : p = SubjectIdsField.missing ∨ p = SubjectIdsField.notList ∨
         p = SubjectIdsField.ids []) :
    enroll_subject db uid p = Except.error ApiError.ValidationError ∧
    ∀ db2 : DB, enroll_subject db uid p ≠ Except.ok db2 := by
  have hmain : enroll_subject db uid p = Except.error ApiError.ValidationError := by
    rcases h with h | h | h <;> subst h <;> simp [enroll_subject]
  exact ⟨hmain, fun db2 hok => by rw [hmain] at hok; exact Except.noConfusion hok⟩

/-- C10 witness: the empty list is rejected on a concrete database. -/
theorem c10_witness :
    enroll_subject ⟨[], [], [], []⟩ 1 (SubjectIdsField.ids []) =
      Except.error ApiError.ValidationError :=
  (c10_enroll_rejects_empty_payload ⟨[], [], [], []⟩ 1 (SubjectIdsField.ids [])
    (Or.inr (Or.inr rfl))).1

/-- Updating a grade list keeps the row found by `gradeFor`'s predicate, with
its marks overwritten and its letter recomputed and all other fields kept. -/
theorem updateGradeRows_mem_of_find (gs : List Grade) (sid subid : Nat) (marks : Rat)
    (g : Grade)
    (h : gs.find? (fun g => decide (g.student_id = sid ∧ g.subject_id = subid)) = some g) :
    { g with marks := marks, grade := calculate_grade marks } ∈
      updateGradeRows gs sid subid marks := by
  induction gs with
  | nil => simp at h
  | cons a rest ih =>
    by_cases hc : a.student_id = sid ∧ a.subject_id = subid
    · rw [List.find?_cons_of_pos _ (by simpa using hc)] at h
      cases h
      simp [updateGradeRows, hc]
    · rw [List.find?_cons_of_neg _ (by simpa using hc)] at h
      simpa [updateGradeRows, hc] using Or.inr (ih h)

/-- Rows not matching (student, subject) survive `updateGradeRows` unchanged. -/
theorem updateGradeRows_mem_of_not_match (gs : List Grade) (sid subid : Nat) (marks : Rat)
    (g : Grade) (hg : g ∈ gs)
    (hnm : ¬ (g.student_id = sid ∧ g.subject_id = subid)) :
    g ∈ updateGradeRows gs sid subid marks := by
  induction gs with
  | nil => simp at hg
  | cons a rest ih =>
    rcases List.mem_cons.mp hg with hga | hga
    · subst hga
      simp [updateGradeRows, hnm]
    · by_cases hc : a.student_id = sid ∧ a.subject_id = subid
      · simpa [updateGradeRows, hc] using Or.inr hga
      · simpa [updateGradeRows, hc] using Or.inr (ih hga)

/-- C6: a grade write fails with Forbidden (HTTP 403 "Unauthorized", app.py:489)
unless an Enrollment row binds exactly the given student, the given subject and
the calling faculty member; nothing is written.  The hypothesis only excludes
the exact triple, so the theorem covers a student enrolled in the same subject
under a different faculty member's offering. -/
theorem c6_grade_requires_own_enrollment (db : DB) (fid sid subid : Nat) (marks : Rat)
    (h : ∀ e ∈ db.enrollments,
        ¬ (e.student_id = sid ∧ e.subject_id = subid ∧ e.faculty_id = some fid)) :
    add_grade db fid sid subid marks = Except.error ApiError.Forbidden := by
  have hfind : facultyEnrollment db sid subid fid = none := by
    apply List.find?_eq_none.mpr
    intro e he
    simpa using h e he
  simp [add_grade, hfind]

/-- C6 witness: in `gradeDB` student 11 is enrolled in subject 1 under
faculty 101, yet faculty 100 grading student 11 in subject 1 is Forbidden. -/
theorem c6_witness :
    ({ student_id := 11, subject_id := 1, faculty_id := some 101 } : Enrollment)
        ∈ gradeDB.enrollments ∧
    add_grade gradeDB 100 11 1 80 = Except.error ApiError.Forbidden :=
  ⟨by decide, c6_grade_requires_own_enrollment gradeDB 100 11 1 80 (by decide)⟩

/-- C5: for an authorized grade write: no existing row creates one with the
derived letter and default flags `is_final=false`, `reevaluation_allowed=false`;
an existing row with `is_final=false` is overwritten unconditionally; a final
locked row (`reevaluation_allowed=false`) fails with GradeLocked; a final
unlocked row (`reevaluation_allowed=true`) is overwritten. -/
theorem c5_grade_lifecycle (db : DB) (fid sid subid : Nat) (marks : Rat)
    (hauth : (facultyEnrollment db sid subid fid).isSome = true) :
    (gradeFor db sid subid = none →
      add_grade db fid sid subid marks =
        Except.ok { db with grades := db.grades ++
          [{ student_id := sid, subject_id := subid, marks := marks,
             grade := calculate_grade marks, is_final := false,
             reevaluation_allowed := false }] }) ∧
    (∀ g, gradeFor db sid subid = some g →
      (g.is_final = false →
        add_grade db fid sid subid marks =
          Except.ok { db with grades := updateGradeRows db.grades sid subid marks } ∧
        { g with marks := marks, grade := calculate_grade marks } ∈
          updateGradeRows db.grades sid subid marks) ∧
      (g.is_final = true → g.reevaluation_allowed = false →
        add_grade db fid sid subid marks = Except.error ApiError.GradeLocked) ∧
      (g.is_final = true → g.reevaluation_allowed = true →
        add_grade db fid sid subid marks =
          Except.ok { db with grades := updateGradeRows db.grades sid subid marks } ∧
        { g with marks := marks, grade := calculate_grade marks } ∈
          updateGradeRows db.grades sid subid marks)) := by
  obtain ⟨e, he⟩ := Option.isSome_iff_exists.mp hauth
  refine ⟨fun hnone => ?_, fun g hg => ⟨fun hfin => ⟨?_, ?_⟩, fun hfin hre => ?_, fun hfin hre => ⟨?_, ?_⟩⟩⟩
  · simp [add_grade, he, hnone]
  · simp [add_grade, he, hg, hfin]
  · exact updateGradeRows_mem_of_find db.grades sid subid marks g hg
  · simp [add_grade, he, hg, hfin, hre]
  · simp [add_grade, he, hg, hfin, hre]
  · exact updateGradeRows_mem_of_find db.grades sid subid marks g hg

/-- C5 witness: on `gradeDB` the final-but-unlocked grade of student 10 in
subject 1 is overwritten by its own faculty. -/
theorem c5_witness :
    add_grade gradeDB 100 10 1 85 =
      Except.ok { gradeDB with grades := updateGradeRows gradeDB.grades 10 1 85 } ∧
    ({ student_id := 10, subject_id := 1, marks := 85, grade := calculate_grade 85,
       is_final := true, reevaluation_allowed := true } : Grade) ∈
      updateGradeRows gradeDB.grades 10 1 85 :=
  ((c5_grade_lifecycle gradeDB 100 10 1 85 (by decide)).2
    { student_id := 10, subject_id := 1, marks := 55, grade := "C",
      is_final := true, reevaluation_allowed := true }
    (by decide)).2.2 (by decide) (by decide)

/-- C7: finalize touches only the grade table; it keeps the row count, sets
`is_final=true` and `reevaluation_allowed=false` on exactly the rows of the
given subject, and leaves every row of any other subject — and every other
field of the affected rows, including marks and letter grade — unchanged. -/
theorem c7_finalize_frame (db : DB) (subid : Nat) :
    (finalize_grades db subid).subjects = db.subjects ∧
    (finalize_grades db subid).enrollments = db.enrollments ∧
    (finalize_grades db subid).requests = db.requests ∧
    (finalize_grades db subid).grades.length = db.grades.length ∧
    ∀ (i : Nat) (hi : i < db.grades.length)
      (hi2 : i < (finalize_grades db subid).grades.length),
      ((db.grades.get ⟨i, hi⟩).subject_id = subid →
        (finalize_grades db subid).grades.get ⟨i, hi2⟩ =
          { db.grades.get ⟨i, hi⟩ with
              is_final := true,
              reevaluation_allowed := false }) ∧
      ((db.grades.get ⟨i, hi⟩).subject_id ≠ subid →
        (finalize_grades db subid).grades.get ⟨i, hi2⟩ = db.grades.get ⟨i, hi⟩) := by
  refine ⟨rfl, rfl, rfl, by simp [finalize_grades], fun i hi hi2 => ⟨fun hmatch => ?_, fun hmiss => ?_⟩⟩
  · simp only [finalize_grades, List.get_eq_getElem, List.getElem_map] at hmatch ⊢
    rw [if_pos hmatch]
  · simp only [finalize_grades, List.get_eq_getElem, List.getElem_map] at hmiss ⊢
    rw [if_neg hmiss]

/-- C7 witness: finalizing subject 3 on `gradeDB` locks student 11's grade in
subject 3 while keeping its marks and letter. -/
theorem c7_witness :
    (finalize_grades gradeDB 3).grades.get ⟨1, by decide⟩ =
      { gradeDB.grades.get ⟨1, by decide⟩ with
          is_final := true,
          reevaluation_allowed := false } :=
  ((c7_finalize_frame gradeDB 3).2.2.2.2 1 (by decide) (by decide)).1 (by decide)

/-- Unlocking a grade list with no matching row changes nothing. -/
theorem unlockGradeRows_of_no_match (gs : List Grade) (sid subid : Nat)
    (h : ∀ g ∈ gs, ¬ (g.student_id = sid ∧ g.subject_id = subid)) :
    unlockGradeRows gs sid subid = gs := by
  induction gs with
  | nil => rfl
  | cons a rest ih =>
    have ha := h a (List.mem_cons_self a rest)
    simp only [unlockGradeRows, if_neg ha]
    rw [ih (fun g hg => h g (List.mem_cons_of_mem a hg))]

/-- A list whose elements are fixed by `f` is unchanged by `List.map f`. -/
theorem map_eq_self_of_fixed {α : Type} (f : α → α) (l : List α)
    (h : ∀ x ∈ l, f x = x) : l.map f = l := by
  induction l with
  | nil => rfl
  | cons a rest ih =>
    simp only [List.map_cons, h a (List.mem_cons_self a rest)]
    rw [ih (fun x hx => h x (List.mem_cons_of_mem a hx))]

/-- With the table's (student, subject) uniqueness, unlocking the first match
is the same as unlocking every match. -/
theorem unlockGradeRows_eq_map (gs : List Grade) (sid subid : Nat)
    (hpairs : (gs.map (fun g => (g.student_id, g.subject_id))).Nodup) :
    unlockGradeRows gs sid subid = gs.map (fun g =>
      if g.student_id = sid ∧ g.subject_id = subid then
        { g with reevaluation_allowed := true }
      else g) := by
  induction gs with
  | nil => rfl
  | cons a rest ih =>
    rw [List.map_cons] at hpairs
    have hnotmem := (List.nodup_cons.mp hpairs).1
    have hrest := (List.nodup_cons.mp hpairs).2
    by_cases hc : a.student_id = sid ∧ a.subject_id = subid
    · simp only [unlockGradeRows, if_pos hc, List.map_cons, if_pos hc]
      have hfix : ∀ g ∈ rest,
          (if g.student_id = sid ∧ g.subject_id = subid then
            { g with reevaluation_allowed := true } else g) = g := by
        intro g hg
        have hgne : ¬ (g.student_id = sid ∧ g.subject_id = subid) := by
          intro hgc
          exact hnotmem (by
            rw [show ((a.student_id, a.subject_id) : Nat × Nat) = (sid, subid) by
              rw [hc.1, hc.2]]
            exact List.mem_map.mpr ⟨g, hg, by rw [hgc.1, hgc.2]⟩)
        rw [if_neg hgne]
      rw [map_eq_self_of_fixed _ rest hfix]
    · simp only [unlockGradeRows, if_neg hc, List.map_cons, if_neg hc]
      rw [ih hrest]

/-- C8: deciding a re-evaluation request fails with NotFound when the id is
unknown; otherwise it stores the given status and admin_comment on the
request, and exactly when the status is "approved" it sets the matching
grade's `reevaluation_allowed` to true — with no grade change when no grade
row exists for (request.student_id, request.subject_id) or when the decision
is not "approved".  The `Nodup` hypothesis is the grade table's
(student, subject) uniqueness constraint. -/
theorem c8_decide_reevaluation (db : DB) (rid : Nat) (status : String)
    (comment : Option String)
    (hpairs : (db.grades.map (fun g => (g.student_id, g.subject_id))).Nodup) :
    (db.requests.find? (fun r => decide (r.id = rid)) = none →
      approve_reevaluation db rid status comment = Except.error ApiError.NotFound) ∧
    (∀ req, db.requests.find? (fun r => decide (r.id = rid)) = some req →
      ∃ db2, approve_reevaluation db rid status comment = Except.ok db2 ∧
        db2.subjects = db.subjects ∧
        db2.enrollments = db.enrollments ∧
        (∃ r2 ∈ db2.requests, r2.id = req.id ∧ r2.status = status ∧
          r2.admin_comment = comment) ∧
        (status ≠ "approved" → db2.grades = db.grades) ∧
        (status = "approved" →
          db2.grades = db.grades.map (fun g =>
            if g.student_id = req.student_id ∧ g.subject_id = req.subject_id then
              { g with reevaluation_allowed := true }
            else g) ∧
          ((∀ g ∈ db.grades,
              ¬ (g.student_id = req.student_id ∧ g.subject_id = req.subject_id)) →
            db2.grades = db.grades) ∧
          (∀ g ∈ db.grades, g.student_id = req.student_id →
            g.subject_id = req.subject_id →
            { g with reevaluation_allowed := true } ∈ db2.grades))) := by
  constructor
  · intro hnone
    simp [approve_reevaluation, hnone]
  · intro req hreq
    have hreqid : req.id = rid := by simpa using List.find?_some hreq
    have hreqmem : req ∈ db.requests := List.mem_of_find?_eq_some hreq
    refine ⟨{ db with
        requests := db.requests.map (fun r =>
          if r.id = rid then { r with status := status, admin_comment := comment }
          else r),
        grades := if status = "approved" then
            unlockGradeRows db.grades req.student_id req.subject_id
          else db.grades },
      by simp [approve_reevaluation, hreq], rfl, rfl, ?_, ?_, ?_⟩
    · refine ⟨{ req with status := status, admin_comment := comment },
        List.mem_map.mpr ⟨req, hreqmem, by rw [if_pos hreqid]⟩, rfl, rfl, rfl⟩
    · intro hne
      simp only [if_neg hne]
    · intro happ
      refine ⟨?_, ?_, ?_⟩
      · simp only [if_pos happ]
        exact unlockGradeRows_eq_map db.grades req.student_id req.subject_id hpairs
      · intro hnom
        simp only [if_pos happ]
        exact unlockGradeRows_of_no_match db.grades req.student_id req.subject_id hnom
      · intro g hin h1 h2
        simp only [if_pos happ,
          unlockGradeRows_eq_map db.grades req.student_id req.subject_id hpairs]
        exact List.mem_map.mpr ⟨g, hin, by rw [if_pos ⟨h1, h2⟩]⟩

/-- C8 witness: approving request 7 on `gradeDB` stores the decision and
unlocks student 10's grade in subject 1. -/
theorem c8_witness :
    ∃ db2, approve_reevaluation gradeDB 7 "approved" (some "recount done") =
        Except.ok db2 ∧
      db2.subjects = gradeDB.subjects ∧
      db2.enrollments = gradeDB.enrollments ∧
      (∃ r2 ∈ db2.requests,
        r2.id = (7 : Nat) ∧ r2.status = "approved" ∧
        r2.admin_comment = some "recount done") ∧
      ((("approved" : String) ≠ "approved") → db2.grades = gradeDB.grades) ∧
      ((("approved" : String) = "approved") →
        db2.grades = gradeDB.grades.map (fun g =>
          if g.student_id = 10 ∧ g.subject_id = 1 then
            { g with reevaluation_allowed := true }
          else g) ∧
        ((∀ g ∈ gradeDB.grades, ¬ (g.student_id = 10 ∧ g.subject_id = 1)) →
          db2.grades = gradeDB.grades) ∧
        (∀ g ∈ gradeDB.grades, g.student_id = 10 → g.subject_id = 1 →
          { g with reevaluation_allowed := true } ∈ db2.grades)) :=
  (c8_decide_reevaluation gradeDB 7 "approved" (some "recount done")
      (by decide)).2
    { id := 7, student_id := 10, subject_id := 1, reason := "recount",
      status := "pending", admin_comment := none }
    (by decide)

/-- C9: every successful grade write stores exactly the submitted marks with
the letter recomputed from them by `calculate_grade` (the caller never
supplies the letter), preserves `is_final` and `reevaluation_allowed` from
any previously existing row for that (student, subject) — so an approval's
`reevaluation_allowed=true` unlock persists across any number of edits — and
leaves every other grade row in place. -/
theorem c9_grade_letter_and_frame (db : DB) (fid sid subid : Nat) (marks : Rat)
    (db2 : DB)
    (hpairs : (db.grades.map (fun g => (g.student_id, g.subject_id))).Nodup)
    (h : add_grade db fid sid subid marks = Except.ok db2) :
    (∃ g2 ∈ db2.grades, g2.student_id = sid ∧ g2.subject_id = subid ∧
      g2.marks = marks ∧ g2.grade = calculate_grade marks ∧
      (∀ g ∈ db.grades, g.student_id = sid → g.subject_id = subid →
        g2.is_final = g.is_final ∧
        g2.reevaluation_allowed = g.reevaluation_allowed)) ∧
    (∀ g ∈ db.grades, ¬ (g.student_id = sid ∧ g.subject_id = subid) →
      g ∈ db2.grades) := by
  cases henr : facultyEnrollment db sid subid fid with
  | none => simp [add_grade, henr] at h
  | some e =>
    cases hgf : gradeFor db sid subid with
    | none =>
      simp only [add_grade, henr, hgf] at h
      cases h
      have hnoprior : ∀ g ∈ db.grades,
          ¬ (g.student_id = sid ∧ g.subject_id = subid) := by
        intro g hg hc
        exact List.find?_eq_none.mp hgf g hg (decide_eq_true hc)
      refine ⟨⟨{ student_id := sid, subject_id := subid, marks := marks,
                 grade := calculate_grade marks, is_final := false,
                 reevaluation_allowed := false },
        List.mem_append_right _ (List.mem_singleton.mpr rfl),
        rfl, rfl, rfl, rfl, ?_⟩, ?_⟩
      · intro g hg h1 h2
        exact absurd ⟨h1, h2⟩ (hnoprior g hg)
      · intro g hg _
        exact List.mem_append_left _ hg
    | some g0 =>
      have hg0mem : g0 ∈ db.grades := List.mem_of_find?_eq_some hgf
      have hg0pred : g0.student_id = sid ∧ g0.subject_id = subid := by
        simpa using List.find?_some hgf
      by_cases hlock : ¬ g0.reevaluation_allowed ∧ g0.is_final
      · simp [add_grade, henr, hgf, hlock] at h
      · simp only [add_grade, henr, hgf, if_neg hlock] at h
        cases h
        refine ⟨⟨{ g0 with marks := marks, grade := calculate_grade marks },
          updateGradeRows_mem_of_find db.grades sid subid marks g0 hgf,
          hg0pred.1, hg0pred.2, rfl, rfl, ?_⟩, ?_⟩
        · intro g hg h1 h2
          have : g = g0 := List.inj_on_of_nodup_map hpairs hg hg0mem (by
            rw [h1, h2, hg0pred.1, hg0pred.2])
          rw [this]
          exact ⟨rfl, rfl⟩
        · intro g hg hnm
          exact updateGradeRows_mem_of_not_match db.grades sid subid marks g hg hnm

/-- C9 witness: re-grading student 10 in subject 1 on `gradeDB` stores
marks 85 with the recomputed letter and keeps the unlock flag. -/
theorem c9_witness :
    (∃ g2 ∈ gradeDB2.grades, g2.student_id = 10 ∧ g2.subject_id = 1 ∧
      g2.marks = 85 ∧ g2.grade = calculate_grade 85 ∧
      (∀ g ∈ gradeDB.grades, g.student_id = 10 → g.subject_id = 1 →
        g2.is_final = g.is_final ∧
        g2.reevaluation_allowed = g.reevaluation_allowed)) ∧
    (∀ g ∈ gradeDB.grades, ¬ (g.student_id = 10 ∧ g.subject_id = 1) →
      g ∈ gradeDB2.grades) :=
  c9_grade_letter_and_frame gradeDB 100 10 1 85 gradeDB2 (by decide) (by rfl)

/-- Head expansion of the membership credit sum. -/
theorem creditSum_cons (s : Subject) (subs : List Subject) (ids : List Nat) :
    creditSum (s :: subs) ids =
      (if s.id ∈ ids then s.credits else 0) + creditSum subs ids := by
  by_cases h : s.id ∈ ids <;> simp [creditSum, List.filter_cons, h]

/-- Appending an id held by no subject in the catalog slice does not change
its credit sum. -/
theorem creditSum_append_irrelevant (subs : List Subject) (ids : List Nat) (x : Nat)
    (hx : ∀ t ∈ subs, t.id ≠ x) :
    creditSum subs (ids ++ [x]) = creditSum subs ids := by
  induction subs with
  | nil => rfl
  | cons a rest ih =>
    have ha := hx a (List.mem_cons_self a rest)
    rw [creditSum_cons, creditSum_cons, ih (fun t ht => hx t (List.mem_cons_of_mem a ht))]
    have hiff : a.id ∈ ids ++ [x] ↔ a.id ∈ ids := by
      simp [List.mem_append, ha]
    by_cases h : a.id ∈ ids
    · rw [if_pos h, if_pos (hiff.mpr h)]
    · rw [if_neg h, if_neg (fun hmem => h (hiff.mp hmem))]

/-- With unique catalog ids, adding one fresh subject id to the membership
set adds exactly that subject's credits. -/
theorem creditSum_append_extra (subs : List Subject) (ids : List Nat) (s : Subject)
    (hnd : (subs.map Subject.id).Nodup) (hmem : s ∈ subs) (hnot : s.id ∉ ids) :
    creditSum subs (ids ++ [s.id]) = creditSum subs ids + s.credits := by
  induction subs with
  | nil => simp at hmem
  | cons a rest ih =>
    rw [List.map_cons, List.nodup_cons] at hnd
    rcases List.mem_cons.mp hmem with heq | hmem2
    · subst heq
      rw [creditSum_cons, creditSum_cons]
      have hxid : ∀ t ∈ rest, t.id ≠ s.id := by
        intro t ht hteq
        exact hnd.1 (hteq ▸ List.mem_map_of_mem Subject.id ht)
      rw [creditSum_append_irrelevant rest ids s.id hxid,
        if_pos (by simp : s.id ∈ ids ++ [s.id]), if_neg hnot]
      ring
    · have hane : a.id ≠ s.id := by
        intro h
        exact hnd.1 (h ▸ List.mem_map_of_mem Subject.id hmem2)
      rw [creditSum_cons, creditSum_cons, ih hnd.2 hmem2]
      have hiff : a.id ∈ ids ++ [s.id] ↔ a.id ∈ ids := by
        simp [List.mem_append, hane]
      by_cases h : a.id ∈ ids
      · rw [if_pos h, if_pos (hiff.mpr h)]
        ring
      · rw [if_neg h, if_neg (fun hmem3 => h (hiff.mp hmem3))]
        ring

/-- C2: the credit check sums the credits of the union of the student's
existing subjects and the new requested subjects: a total above 27 fails with
CreditLimitExceeded (creating nothing), a total of at most 27 never raises
that error (27 itself is accepted), and a student whose existing enrollments
already total 27 credits cannot add any positive-credit subject. -/
theorem c2_credit_limit (db : DB) (uid : Nat) (l : List Nat)
    (hids : (db.subjects.map Subject.id).Nodup)
    (hne : l ≠ [])
    (hres : (requestedSubjects db l).length = l.length) :
    (enrollTotalCredits db uid l > 27 →
      enroll_subject db uid (SubjectIdsField.ids l) =
        Except.error ApiError.CreditLimitExceeded) ∧
    (enrollTotalCredits db uid l ≤ 27 →
      enroll_subject db uid (SubjectIdsField.ids l) ≠
        Except.error ApiError.CreditLimitExceeded) ∧
    (∀ s : Subject, newSubjects db uid l = [s] → 0 < s.credits →
      creditSum db.subjects (studentSubjectIds db uid) = 27 →
      enroll_subject db uid (SubjectIdsField.ids l) =
        Except.error ApiError.CreditLimitExceeded) := by
  have hres2 : ¬ (requestedSubjects db l).length ≠ l.length := fun h => h hres
  have key : enrollTotalCredits db uid l > 27 →
      enroll_subject db uid (SubjectIdsField.ids l) =
        Except.error ApiError.CreditLimitExceeded := by
    intro hgt
    simp only [enroll_subject, if_neg hne, if_neg hres2]
    rw [if_pos hgt]
  refine ⟨key, ?_, ?_⟩
  · intro hle
    simp only [enroll_subject, if_neg hne, if_neg hres2]
    rw [if_neg (not_lt.mpr hle)]
    split_ifs <;> simp
  · intro s hnew hpos h27
    apply key
    have hsnewmem : s ∈ newSubjects db uid l := by
      rw [hnew]
      exact List.mem_singleton.mpr rfl
    have hsmem : s ∈ db.subjects :=
      (List.mem_filter.mp (List.mem_filter.mp hsnewmem).1).1
    have hsnot : s.id ∉ studentSubjectIds db uid := by
      have := (List.mem_filter.mp hsnewmem).2
      simpa using this
    unfold enrollTotalCredits
    rw [hnew]
    simp only [List.map_cons, List.map_nil]
    rw [creditSum_append_extra db.subjects (studentSubjectIds db uid) s hids hsmem hsnot,
      h27]
    omega

/-- C2 witness: student 10 (4 existing credits) requesting the 24-credit
subject 2 on `sampleDB` exceeds the 27-credit cap. -/
theorem c2_witness :
    enroll_subject sampleDB 10 (SubjectIdsField.ids [2]) =
      Except.error ApiError.CreditLimitExceeded :=
  (c2_credit_limit sampleDB 10 [2] (by decide) (by decide) (by decide)).1 (by decide)

/-- A list and its dedup have the same length exactly when the list has no
duplicate (`len(new_slots) == len(set(new_slots))` in the source). -/
theorem length_dedup_eq_iff {α : Type} [DecidableEq α] (l : List α) :
    l.dedup.length = l.length ↔ l.Nodup := by
  constructor
  · intro h
    have heq := (List.dedup_sublist l).eq_of_length h
    rw [← heq]
    exact List.nodup_dedup l
  · intro h
    rw [h.dedup]

/-- C3: once the credit check passes, the request fails with SlotClash — and
creates no enrollment — if some new subject's slot equals the slot of one of
the student's existing enrollments, or if two new subjects in the request
share a slot. -/
theorem c3_slot_clash (db : DB) (uid : Nat) (l : List Nat)
    (hne : l ≠ [])
    (hres : (requestedSubjects db l).length = l.length)
    (hcred : enrollTotalCredits db uid l ≤ 27)
    (hclash :
      (∃ sl ∈ (newSubjects db uid l).map Subject.slot, sl ∈ studentSlots db uid) ∨
      ¬ ((newSubjects db uid l).map Subject.slot).Nodup) :
    enroll_subject db uid (SubjectIdsField.ids l) =
      Except.error ApiError.SlotClash := by
  have hres2 : ¬ (requestedSubjects db l).length ≠ l.length := fun h => h hres
  simp only [enroll_subject, if_neg hne, if_neg hres2]
  rw [if_neg (not_lt.mpr hcred)]
  by_cases hany : ((newSubjects db uid l).map Subject.slot).any
      (fun sl => decide (sl ∈ studentSlots db uid)) = true
  · rw [if_pos hany]
  · have hdup : ¬ ((newSubjects db uid l).map Subject.slot).Nodup := by
      rcases hclash with ⟨sl, hsl1, hsl2⟩ | hdup
      · exact absurd (List.any_eq_true.mpr ⟨sl, hsl1, decide_eq_true hsl2⟩) hany
      · exact hdup
    rw [if_neg hany,
      if_pos (fun hlen => hdup ((length_dedup_eq_iff _).mp hlen.symm))]

/-- C3 witness: on `sampleDB` student 10 already occupies slot A1 (subject 1),
so requesting subject 3 (also slot A1, within the credit cap) clashes. -/
theorem c3_witness :
    enroll_subject sampleDB 10 (SubjectIdsField.ids [3]) =
      Except.error ApiError.SlotClash :=
  c3_slot_clash sampleDB 10 [3] (by decide) (by decide) (by decide)
    (Or.inl (by decide))

/-- When the requested ids are distinct and each resolves in the catalog (whose
ids are unique), the resolve-all length check of app.py:272 passes. -/
theorem requestedSubjects_length_of_resolves (db : DB) (l : List Nat)
    (hids : (db.subjects.map Subject.id).Nodup) (hl : l.Nodup)
    (hall : ∀ i ∈ l, i ∈ db.subjects.map Subject.id) :
    (requestedSubjects db l).length = l.length := by
  have h1 : (requestedSubjects db l).length
      = ((db.subjects.map Subject.id).filter (fun i => decide (i ∈ l))).length := by
    unfold requestedSubjects
    rw [← List.countP_eq_length_filter, ← List.countP_eq_length_filter,
      List.countP_map]
    rfl
  rw [h1]
  have hperm : ((db.subjects.map Subject.id).filter
      (fun i => decide (i ∈ l))).Perm l := by
    apply (List.perm_ext_iff_of_nodup (hids.filter _) hl).mpr
    intro a
    constructor
    · intro ha
      simpa using (List.mem_filter.mp ha).2
    · intro ha
      exact List.mem_filter.mpr ⟨hall a ha, decide_eq_true ha⟩
  exact hperm.length_eq

/-- When every requested subject is already enrolled, nothing is left to
create. -/
theorem newSubjects_eq_nil (db : DB) (uid : Nat) (l : List Nat)
    (henr : ∀ i ∈ l, i ∈ studentSubjectIds db uid) :
    newSubjects db uid l = [] := by
  apply List.filter_eq_nil_iff.mpr
  intro s hs
  have hid : s.id ∈ l := by simpa using (List.mem_filter.mp hs).2
  simp [henr s.id hid]

/-- C1 counterexample: on `sampleDB` both occurrences of id 1 resolve in the
catalog and student 10 is already enrolled in subject 1, yet repeating the id
within one call is rejected with NotFound (the resolve-all length check of
app.py:272 counts the duplicate), not silently skipped as a success. -/
theorem c1_counterexample :
    (1 ∈ sampleDB.subjects.map Subject.id) ∧
    (1 ∈ studentSubjectIds sampleDB 10) ∧
    enroll_subject sampleDB 10 (SubjectIdsField.ids [1, 1]) =
      Except.error ApiError.NotFound :=
  ⟨by decide, by decide, by rfl⟩

/-- C1 (amended to lists of distinct subject ids): enroll never creates two
Enrollment rows for the same (student, subject) pair, and a later call
re-submitting only already-enrolled subjects (with the existing credit total
within the cap) is silently skipped and succeeds as a no-op rather than being
rejected; a list repeating an id within one call is instead rejected with
NotFound (see the counterexample). -/
theorem c1_enroll_idempotent (db : DB) (uid : Nat) (l : List Nat)
    (hids : (db.subjects.map Subject.id).Nodup)
    (hl : l.Nodup) :
    (∀ db2, enroll_subject db uid (SubjectIdsField.ids l) = Except.ok db2 →
      (db.enrollments.map (fun e => (e.student_id, e.subject_id))).Nodup →
      (db2.enrollments.map (fun e => (e.student_id, e.subject_id))).Nodup) ∧
    (l ≠ [] →
      (∀ i ∈ l, i ∈ studentSubjectIds db uid) →
      (∀ i ∈ l, i ∈ db.subjects.map Subject.id) →
      creditSum db.subjects (studentSubjectIds db uid) ≤ 27 →
      enroll_subject db uid (SubjectIdsField.ids l) = Except.ok db) := by
  constructor
  · intro db2 hok hpairs
    simp only [enroll_subject] at hok
    split_ifs at hok with h1 h2 h3 h4 h5
    · injection hok with hinj
      subst hinj
      simp only [List.map_append]
      have hsub1 : List.Sublist (newSubjects db uid l) (requestedSubjects db l) :=
        List.filter_sublist (requestedSubjects db l)
      have hsub2 : List.Sublist (requestedSubjects db l) db.subjects :=
        List.filter_sublist db.subjects
      have hidnd : ((newSubjects db uid l).map Subject.id).Nodup :=
        hids.sublist ((hsub1.trans hsub2).map Subject.id)
      have hnewpairs :
          ((newSubjects db uid l).map (fun s =>
            ({ student_id := uid, subject_id := s.id,
               faculty_id := s.faculty_id } : Enrollment))).map
            (fun e => (e.student_id, e.subject_id))
          = ((newSubjects db uid l).map Subject.id).map
              (fun i => ((uid, i) : Nat × Nat)) := by
        rw [List.map_map, List.map_map]
        rfl
      rw [hnewpairs]
      apply hpairs.append
        (hidnd.map (fun a b hab => by simpa using hab))
      intro a ha hb
      obtain ⟨e, he, hea⟩ := List.mem_map.mp ha
      obtain ⟨i, hi, hia⟩ := List.mem_map.mp hb
      obtain ⟨s, hs, hsi⟩ := List.mem_map.mp hi
      have hpair : ((e.student_id, e.subject_id) : Nat × Nat) = (uid, i) :=
        hea.trans hia.symm
      injection hpair with h1 h2
      have hefilter : e ∈ studentEnrollments db uid :=
        List.mem_filter.mpr ⟨he, decide_eq_true h1⟩
      have hmemids : s.id ∈ studentSubjectIds db uid := by
        have hmm : e.subject_id ∈ studentSubjectIds db uid :=
          List.mem_map_of_mem Enrollment.subject_id hefilter
        rwa [h2, ← hsi] at hmm
      exact absurd hmemids (by simpa using (List.mem_filter.mp hs).2)
  · intro hne henr hall hcred
    have hres := requestedSubjects_length_of_resolves db l hids hl hall
    have hres2 : ¬ (requestedSubjects db l).length ≠ l.length := fun h => h hres
    have hnil := newSubjects_eq_nil db uid l henr
    have hcred2 : ¬ enrollTotalCredits db uid l > 27 := by
      apply not_lt.mpr
      unfold enrollTotalCredits
      rw [hnil]
      simpa using hcred
    simp only [enroll_subject, if_neg hne, if_neg hres2]
    rw [if_neg hcred2, hnil]
    simp

/-- C1 witness: student 10 re-submitting the already-enrolled subject 1 on
`sampleDB` is a silent no-op success, not an error. -/
theorem c1_witness :
    enroll_subject sampleDB 10 (SubjectIdsField.ids [1]) = Except.ok sampleDB :=
  (c1_enroll_idempotent sampleDB 10 [1] (by decide) (by decide)).2
    (by decide) (by decide) (by decide) (by decide)
